import Mathlib

/-
  Shallow embedding of the submission relay pipeline of src/index.js
  (form/WhatsApp lead intake service):

  * Intake Coordinator: the POST /formnew/submit handler (lines 56-162),
    which logs locally, relays to the spreadsheet endpoint, replies, and
    then starts the background Rocketour replication task.
  * Durable Log Writer: appendJsonLine (lines 33-38), an asynchronous
    fs.appendFile that schedules a disk write and returns immediately.
  * Browser Replicator: the backgroundRocketourSubmission task
    (lines 91-161), driving a headless browser against the partner form.

  External effects (disk, network, browser page structure, exceptions
  raised by awaited browser steps) are modelled as explicit inputs; the
  embedding computes the log entries, typed field values, reply and
  event ordering that the JavaScript produces from those inputs.
-/

namespace BTour

/-- JavaScript truthiness of an optional string field of the payload:
`undefined` and the empty string are falsy, every other string is truthy. -/
def jsTruthy : Option String → Bool
  | none => false
  | some s => s != ""

/-- The `tours` payload field: absent, a list of tour names, or a single
delimited string (the code checks `Array.isArray(data.tours)`). -/
inductive ToursVal where
  | noTours
  | listV (ts : List String)
  | strV (s : String)
  deriving DecidableEq, Repr

/-- The parsed inbound record (req.body), with the fields the pipeline
reads: source, name, phone, npart, participants, tour_details, tours. -/
structure Payload where
  source : Option String := none
  name : Option String := none
  phone : Option String := none
  npart : Option String := none
  participants : Option String := none
  tour_details : Option String := none
  tours : ToursVal := .noTours
  deriving DecidableEq, Repr

/-- JavaScript `a || b` on an optional string: falls through on
`undefined` and on the empty string (both falsy). -/
def jsOr (a : Option String) (b : String) : String :=
  match a with
  | none => b
  | some s => if s = "" then b else s

/-- Model of JavaScript toLowerCase: lower-case each character of the
string. -/
def strToLower (s : String) : String :=
  String.mk (s.data.map Char.toLower)

/-- Line 59: `(payload.source || "form").toString().toLowerCase()`. -/
def resolveSource (p : Payload) : String :=
  strToLower (jsOr p.source "form")

/-- Line 60: the client address is the first truthy transport hint among
the cf-connecting-ip header, the x-forwarded-for header, and req.ip. -/
def deriveIp (cfIp xff : Option String) (reqIp : String) : String :=
  jsOr cfIp (jsOr xff reqIp)

/-- Outcome of the awaited spreadsheet relay fetch (lines 68-85): the
endpoint answered with a success status, a non-success status plus body
text, or the fetch threw a transport exception or timeout. -/
inductive RelayResult where
  | ok
  | httpError (status : Nat) (text : String)
  | exception (msg : String)
  deriving DecidableEq, Repr

/-- Entry appended to the general log (line 63): `{ ip, source, payload }`. -/
structure GeneralEntry where
  ip : String
  source : String
  payload : Payload
  deriving DecidableEq, Repr

/-- Entry appended to the WhatsApp log (line 65): `{ ip, payload }`. -/
structure WhatsappEntry where
  ip : String
  payload : Payload
  deriving DecidableEq, Repr

/-- Entry appended to the sheet-failure log (lines 77 and 83): either
`{ status, text, payload }` or `{ error, payload }`. -/
structure SheetFailEntry where
  status : Option Nat
  text : Option String
  error : Option String
  payload : Payload
  deriving DecidableEq, Repr

/-- Entry appended to the Rocketour outcome log (lines 144, 148, 152,
158): a status field for the two submitted outcomes, or an error field. -/
structure RockEntry where
  status : Option String
  error : Option String
  payload : Payload
  deriving DecidableEq, Repr

/-- The HTTP reply produced by the handler (line 88). -/
structure Reply where
  status : Nat
  ok : Bool
  deriving DecidableEq, Repr

/-- What the synchronous part of the POST /formnew/submit handler
produces: the reply, the entries appended to each log channel, and the
start of the background replication task with its arguments. -/
structure HandlerResult where
  reply : Reply
  generalLog : List GeneralEntry
  whatsappLog : List WhatsappEntry
  sheetFailLog : List SheetFailEntry
  bgStarted : Bool
  bgSource : String
  deriving DecidableEq, Repr

/-- The POST /formnew/submit handler, lines 56-162: resolve the source
and client address, append to the general log, conditionally append to
the WhatsApp log, run the relay (logging failures), reply `200 {ok:true}`
unconditionally, then invoke the background Rocketour task (the IIFE at
lines 91-161) with the payload, resolved source and address; the source
code invokes it with no condition on the source. -/
def handleSubmit (payload : Payload) (cfIp xff : Option String)
    (reqIp : String) (relay : RelayResult) : HandlerResult :=
  let source := resolveSource payload
  let ip := deriveIp cfIp xff reqIp
  { reply := { status := 200, ok := true }
    generalLog := [{ ip := ip, source := source, payload := payload }]
    whatsappLog :=
      if source = "whatsapp" then [{ ip := ip, payload := payload }] else []
    sheetFailLog :=
      match relay with
      | .ok => []
      | .httpError s t =>
          [{ status := some s, text := some t, error := none, payload := payload }]
      | .exception m =>
          [{ status := none, text := none, error := some m, payload := payload }]
    bgStarted := true
    bgSource := source }

/-- Log channels (the four append-only files of lines 25-28). -/
inductive Chan where
  | general
  | whatsappC
  | sheetFail
  | rocketour
  deriving DecidableEq, Repr

/-- Events of one submission. `appendStart c` is the invocation of
appendJsonLine on channel c (fs.appendFile is called and returns at
once); `appendDone c` is the later completion of that asynchronous disk
write; `relayCall` is the awaited fetch to the spreadsheet endpoint;
`reply` is `res.status(200).json(...)`; `bgScheduled` is the invocation
of the background Rocketour task. -/
inductive Event where
  | appendStart (c : Chan)
  | appendDone (c : Chan)
  | relayCall
  | reply
  | bgScheduled
  deriving DecidableEq, Repr

/-- The program-order event sequence of the synchronous handler task for
one submission (lines 62-91): general-log append, conditional
WhatsApp-log append, the relay fetch, a sheet-failure append when the
relay did not succeed, the reply, then background-task invocation. -/
def progTrace (p : Payload) (relay : RelayResult) : List Event :=
  [.appendStart .general]
    ++ (if resolveSource p = "whatsapp" then [.appendStart .whatsappC] else [])
    ++ [.relayCall]
    ++ (match relay with
        | .ok => []
        | .httpError _ _ => [.appendStart .sheetFail]
        | .exception _ => [.appendStart .sheetFail])
    ++ [.reply, .bgScheduled]

/-- True of completion events of asynchronous disk writes. -/
def isDoneEvent : Event → Bool
  | .appendDone _ => true
  | _ => false

/-- A full execution trace is admissible for a given program-order trace
when erasing the asynchronous write completions leaves exactly the
program order, and each completion is preceded by a matching write
start. fs.appendFile imposes no further ordering: the handler never
awaits the write, so its completion may land anywhere after its start. -/
def admissibleB (full prog : List Event) : Bool :=
  (full.filter (fun e => !isDoneEvent e) == prog) &&
  (List.range full.length).all fun i =>
    match full.get? i with
    | some (.appendDone c) => (full.take i).any (fun e => e == .appendStart c)
    | _ => true

/-- a occurs in the trace, b occurs in the trace, and the first
occurrence of a is strictly before the first occurrence of b. -/
def precedesB (tr : List Event) (a b : Event) : Bool :=
  match tr.findIdx? (fun e => e == a), tr.findIdx? (fun e => e == b) with
  | some i, some j => i < j
  | _, _ => false

/-! ## Browser Replicator (backgroundRocketourSubmission, lines 91-161) -/

/-- The awaited browser-automation steps of the background task, in
program order; an injected exception names the step at which it is
raised. The success-indicator wait is not a step here: its timeout
rejection is caught by the inner try and becomes the no-indicator
outcome, modelled by the page environment below. -/
inductive BgStep where
  | launch
  | newPage
  | goto
  | fill
  | findSubmit
  | click
  | closeB
  deriving DecidableEq, Repr

/-- An exception raised by the awaited browser step `point`, carrying
the message that the catch block logs. -/
structure Exc where
  point : BgStep
  msg : String
  deriving DecidableEq, Repr

/-- The message of the injected exception if it fires at step s. -/
def excAt (exc : Option Exc) (s : BgStep) : Option String :=
  match exc with
  | some e => if e.point = s then some e.msg else none
  | none => none

/-- The observable structure of the partner page for one attempt: which
probed selectors are present (lines 108-137), and whether the green
success indicator appears within the 5000 ms wait (line 143). -/
structure PageEnv where
  hasAffiliate : Bool
  hasCity : Bool
  hasLeadName : Bool
  hasLeadPhone : Bool
  hasNotes : Bool
  hasSubmit : Bool
  greenBoxAppears : Bool
  deriving DecidableEq, Repr

/-- Line 20: the affiliate identifier typed into the partner form. -/
def affiliateId : String := "242"

/-- Line 112: the fixed destination city typed into the partner form. -/
def cityValue : String := "רומא"

/-- Line 123/124 label of the participant-count notes parts. -/
def npartLabel : String := "מספר משתתפים: "

/-- Line 129 trailing marker for WhatsApp-sourced submissions. -/
def waMarker : String := "נשלח בוואטסאפ"

/-- Line 129 trailing marker for form-sourced submissions. -/
def formMarker : String := "נשלח בטופס"

/-- JavaScript truthiness of the tours field: undefined and the empty
string are falsy; an array is truthy even when empty. -/
def toursTruthy : ToursVal → Bool
  | .noTours => false
  | .listV _ => true
  | .strV s => s != ""

/-- Line 127: `Array.isArray(data.tours) ? data.tours.join(", ") :
String(data.tours)`. -/
def toursText : ToursVal → String
  | .noTours => ""
  | .listV ts => String.intercalate ", " ts
  | .strV s => s

/-- Lines 122-129: the notes parts pushed for truthy npart,
participants, tour_details and tours fields, then the channel marker. -/
def notesParts (data : Payload) (src : String) : List String :=
  (if jsTruthy data.npart then [npartLabel ++ data.npart.getD ""] else [])
    ++ (if jsTruthy data.participants then
          [npartLabel ++ data.participants.getD ""] else [])
    ++ (if jsTruthy data.tour_details then [data.tour_details.getD ""] else [])
    ++ (if toursTruthy data.tours then [toursText data.tours] else [])
    ++ [if src = "whatsapp" then waMarker else formMarker]

/-- Line 130: `notesParts.filter(Boolean).join("\n")`. -/
def notesValue (data : Payload) (src : String) : String :=
  String.intercalate "\n" ((notesParts data src).filter (fun s => s != ""))

/-- Lines 115 and 118: `data.name ? String(data.name) : ""` — a ternary
on truthiness that types the empty string for a missing or empty field. -/
def jsStringField (o : Option String) : String :=
  match o with
  | none => ""
  | some s => if s = "" then "" else s

/-- Observable outcome of one background replication attempt: whether a
browser session was launched and whether it was closed, whether the
submit control was clicked, what each probed field received (`none`
when the selector was absent or never reached), and the entries
appended to the Rocketour outcome log. -/
structure BgResult where
  launched : Bool
  closed : Bool
  clicked : Bool
  affiliateTyped : Option String
  cityTyped : Option String
  leadNameTyped : Option String
  leadPhoneTyped : Option String
  notesTyped : Option String
  entries : List RockEntry
  deriving DecidableEq, Repr

/-- The result of an attempt that stopped before reaching any page
interaction. -/
def emptyBg : BgResult :=
  { launched := false, closed := false, clicked := false,
    affiliateTyped := none, cityTyped := none, leadNameTyped := none,
    leadPhoneTyped := none, notesTyped := none, entries := [] }

/-- A Rocketour-log entry carrying an error field (lines 152 and 158). -/
def errEntry (msg : String) (data : Payload) : RockEntry :=
  { status := none, error := some msg, payload := data }

/-- The backgroundRocketourSubmission task, lines 91-161. The whole body
is one try whose catch appends an error entry and does NOT close the
browser; `browser.close()` (line 156) is the last statement of the try,
reached from the submit-found and submit-missing branches alike. An
exception at a step skips the rest of the try: in particular the browser
stays open whenever the exception fires after the launch. -/
def backgroundRocketour (data : Payload) (src : String) (env : PageEnv)
    (exc : Option Exc) : BgResult :=
  match excAt exc .launch with
  | some m => { emptyBg with entries := [errEntry m data] }
  | none =>
  match excAt exc .newPage with
  | some m => { emptyBg with launched := true, entries := [errEntry m data] }
  | none =>
  match excAt exc .goto with
  | some m => { emptyBg with launched := true, entries := [errEntry m data] }
  | none =>
  match excAt exc .fill with
  | some m => { emptyBg with launched := true, entries := [errEntry m data] }
  | none =>
  let filled : BgResult :=
    { emptyBg with
      launched := true
      affiliateTyped := if env.hasAffiliate then some affiliateId else none
      cityTyped := if env.hasCity then some cityValue else none
      leadNameTyped :=
        if env.hasLeadName then some (jsStringField data.name) else none
      leadPhoneTyped :=
        if env.hasLeadPhone then some (jsStringField data.phone) else none
      notesTyped := if env.hasNotes then some (notesValue data src) else none }
  match excAt exc .findSubmit with
  | some m => { filled with entries := [errEntry m data] }
  | none =>
  if env.hasSubmit then
    match excAt exc .click with
    | some m => { filled with entries := [errEntry m data] }
    | none =>
    let outcome : RockEntry :=
      if env.greenBoxAppears then
        { status := some "success_detected", error := none, payload := data }
      else
        { status := some "submitted_no_green_box", error := none, payload := data }
    match excAt exc .closeB with
    | some m =>
        { filled with clicked := true, entries := [outcome, errEntry m data] }
    | none =>
        { filled with clicked := true, closed := true, entries := [outcome] }
  else
    match excAt exc .closeB with
    | some m =>
        { filled with
          entries := [errEntry "no_submit_button_found" data, errEntry m data] }
    | none =>
        { filled with
          closed := true
          entries := [errEntry "no_submit_button_found" data] }

/-- Does the source field of the payload case-insensitively equal
whatsapp? (The wording of the spec; absent source does not match.) -/
def sourceIsWhatsapp (p : Payload) : Bool :=
  match p.source with
  | some s => strToLower s == "whatsapp"
  | none => false

/-- A concrete WhatsApp-sourced submission. -/
def waPayload : Payload := { source := some "WhatsApp" }

/-- A concrete form-sourced submission. -/
def samplePayload : Payload :=
  { name := some "Dana", phone := some "0501234567" }

/-- A concrete full trace for one form submission: the asynchronous
general-log write completes only after the relay call, the reply and
the background-task start. -/
def lateWriteTrace : List Event :=
  [.appendStart .general, .relayCall, .reply, .bgScheduled,
   .appendDone .general]

/-- A partner page exposing every probed selector, with a success
indicator that appears in time. -/
def envAll : PageEnv :=
  { hasAffiliate := true, hasCity := true, hasLeadName := true,
    hasLeadPhone := true, hasNotes := true, hasSubmit := true,
    greenBoxAppears := true }

/-- A partner page with a submit control but no success indicator
within the wait bound. -/
def envNoGreen : PageEnv :=
  { hasAffiliate := true, hasCity := true, hasLeadName := true,
    hasLeadPhone := true, hasNotes := true, hasSubmit := true,
    greenBoxAppears := false }

/-- A partner page with no submit control. -/
def envNoSubmit : PageEnv :=
  { hasAffiliate := true, hasCity := true, hasLeadName := true,
    hasLeadPhone := true, hasNotes := true, hasSubmit := false,
    greenBoxAppears := false }

/-- A navigation timeout raised by the awaited page.goto step. -/
def gotoTimeout : Exc :=
  { point := .goto, msg := "Navigation timeout of 30000 ms exceeded" }

/-! ## Helper lemmas -/

/-- The resolved source is whatsapp exactly when the payload source
field case-insensitively equals whatsapp. -/
theorem resolveSource_whatsapp_iff (p : Payload) :
    resolveSource p = "whatsapp" ↔ sourceIsWhatsapp p = true := by
  unfold resolveSource sourceIsWhatsapp jsOr
  cases p.source with
  | none => decide
  | some s =>
      dsimp only
      by_cases hs : s = ""
      · subst hs; decide
      · rw [if_neg hs]
        exact beq_iff_eq.symm

/-- A falsy optional string field is typed as the empty string by the
ternary of lines 115 and 118. -/
theorem jsStringField_of_falsy (o : Option String) (h : jsTruthy o = false) :
    jsStringField o = "" := by
  cases o with
  | none => rfl
  | some s =>
      have hs : s = "" := by simpa [jsTruthy] using h
      subst hs; rfl

/-- With no exception, the lead-name field receives the ternary value
exactly when its selector is present on the page. -/
theorem bg_leadNameTyped (data : Payload) (src : String) (env : PageEnv) :
    (backgroundRocketour data src env none).leadNameTyped
      = (if env.hasLeadName = true
         then some (jsStringField data.name) else none) := by
  cases env with
  | mk a b c d e f g => cases f <;> rfl

/-- With no exception, the lead-phone field receives the ternary value
exactly when its selector is present on the page. -/
theorem bg_leadPhoneTyped (data : Payload) (src : String) (env : PageEnv) :
    (backgroundRocketour data src env none).leadPhoneTyped
      = (if env.hasLeadPhone = true
         then some (jsStringField data.phone) else none) := by
  cases env with
  | mk a b c d e f g => cases f <;> rfl

/-! ## Claims -/

/-- C1, counterexample: the claim says the replicator is never run for a
submission whose source resolves to whatsapp; but the handler starts the
background task for this WhatsApp submission too (the IIFE at line 91 is
invoked unconditionally). -/
theorem c1_whatsapp_replicated_counterexample :
    resolveSource waPayload = "whatsapp" ∧
    (handleSubmit waPayload none none "203.0.113.7" RelayResult.ok).bgStarted
      = true := by
  constructor
  · decide
  · rfl

/-- C1, amended: the Browser Replicator background task is started for
every submission, whatever the source resolves to; the source only
selects the channel marker inside the composed notes. -/
theorem c1_replicator_always_started (p : Payload) (cf xff : Option String)
    (ip : String) (r : RelayResult) :
    (handleSubmit p cf xff ip r).bgStarted = true ∧
    Event.bgScheduled ∈ progTrace p r := by
  refine ⟨rfl, ?_⟩
  unfold progTrace
  simp

/-- C2, counterexample: appendJsonLine uses asynchronous fs.appendFile,
so a trace in which the general-log disk write completes only after the
relay call (and the reply and the background start) is admissible; the
append therefore does not complete before the downstream network call. -/
theorem c2_late_write_counterexample :
    admissibleB lateWriteTrace (progTrace samplePayload RelayResult.ok)
      = true ∧
    precedesB lateWriteTrace (.appendDone .general) .relayCall = false ∧
    precedesB lateWriteTrace .relayCall (.appendDone .general) = true := by
  decide

/-- C2, amended: in program order the initiation of the general-log
append strictly precedes the relay call, the relay call strictly
precedes the reply, the reply strictly precedes the scheduling of the
replication task, and the WhatsApp-log append is initiated before the
relay call exactly when the source resolves to whatsapp; completion of
the asynchronous append is not ordered before the relay call. -/
theorem c2_program_order (p : Payload) (r : RelayResult) :
    precedesB (progTrace p r) (.appendStart .general) .relayCall = true ∧
    precedesB (progTrace p r) .relayCall .reply = true ∧
    precedesB (progTrace p r) .reply .bgScheduled = true ∧
    precedesB (progTrace p r) (.appendStart .whatsappC) .relayCall
      = (if resolveSource p = "whatsapp" then true else false) := by
  by_cases h : resolveSource p = "whatsapp" <;>
    cases r <;> simp only [progTrace, h, if_true, if_pos, if_neg] <;>
    simp [h] <;> decide

/-- C4: the reply is the fixed success shape `200 {ok:true}` for every
relay outcome, success, non-success status and transport exception
alike. -/
theorem c4_ack_independent_of_relay (p : Payload) (cf xff : Option String)
    (ip : String) (r : RelayResult) :
    (handleSubmit p cf xff ip r).reply = { status := 200, ok := true } := rfl

/-- C5: exactly one entry is appended to the general log, and its
payload field is the parsed inbound record, verbatim. -/
theorem c5_general_log_single_verbatim (p : Payload) (cf xff : Option String)
    (ip : String) (r : RelayResult) :
    (handleSubmit p cf xff ip r).generalLog
      = [{ ip := deriveIp cf xff ip, source := resolveSource p,
           payload := p }] := rfl

/-- C6: the WhatsApp log receives exactly one entry when the source
field case-insensitively equals whatsapp, and none for any other or
absent source (an absent source resolves to form). -/
theorem c6_whatsapp_log (p : Payload) (cf xff : Option String) (ip : String)
    (r : RelayResult) :
    (handleSubmit p cf xff ip r).whatsappLog
      = (if sourceIsWhatsapp p = true
         then [{ ip := deriveIp cf xff ip, payload := p }] else []) ∧
    (handleSubmit p cf xff ip r).whatsappLog.length
      = (if sourceIsWhatsapp p = true then 1 else 0) := by
  have hmain : (handleSubmit p cf xff ip r).whatsappLog
      = (if sourceIsWhatsapp p = true
         then [{ ip := deriveIp cf xff ip, payload := p }] else []) := by
    unfold handleSubmit
    dsimp only
    by_cases h : sourceIsWhatsapp p = true
    · rw [if_pos ((resolveSource_whatsapp_iff p).mpr h), if_pos h]
    · rw [if_neg (fun hc => h ((resolveSource_whatsapp_iff p).mp hc)),
          if_neg h]
  refine ⟨hmain, ?_⟩
  rw [hmain]
  by_cases h : sourceIsWhatsapp p = true <;> simp [h]

/-- C3: the claim says the browser session is released on every exit
path, including any exception after launch; but when the awaited
page.goto raises a navigation timeout, the catch block (lines 157-160)
appends the error outcome without closing the browser — the session is
launched yet never closed. -/
theorem c3_browser_not_closed_on_exception :
    (backgroundRocketour samplePayload "form" envAll (some gotoTimeout)).launched
      = true ∧
    (backgroundRocketour samplePayload "form" envAll (some gotoTimeout)).closed
      = false ∧
    (backgroundRocketour samplePayload "form" envAll (some gotoTimeout)).entries
      = [errEntry gotoTimeout.msg samplePayload] :=
  ⟨rfl, rfl, rfl⟩

/-- C3, complement: on the three exception-free exit paths (success
detected, no indicator, missing submit control) the session is closed. -/
theorem c3_closed_without_exception (data : Payload) (src : String)
    (env : PageEnv) :
    (backgroundRocketour data src env none).closed = true := by
  cases env with
  | mk a b c d e f g => cases f <;> rfl

/-- C7: when the page has no submit control and no exception fires, the
attempt appends exactly the no_submit_button_found error entry to the
outcome log — no success or inconclusive entry — does not click any
submit, and still closes the browser. -/
theorem c7_no_submit_control (data : Payload) (src : String) (env : PageEnv)
    (h : env.hasSubmit = false) :
    (backgroundRocketour data src env none).entries
      = [errEntry "no_submit_button_found" data] ∧
    (backgroundRocketour data src env none).clicked = false ∧
    (backgroundRocketour data src env none).closed = true := by
  cases env with
  | mk a b c d e f g =>
      have hf : f = false := h
      subst hf
      exact ⟨rfl, rfl, rfl⟩

/-- C7, witness at a concrete submit-less page. -/
theorem c7_no_submit_control_witness :
    (backgroundRocketour samplePayload "form" envNoSubmit none).entries
      = [errEntry "no_submit_button_found" samplePayload] ∧
    (backgroundRocketour samplePayload "form" envNoSubmit none).clicked
      = false ∧
    (backgroundRocketour samplePayload "form" envNoSubmit none).closed
      = true :=
  c7_no_submit_control samplePayload "form" envNoSubmit rfl

/-- C8: when the submit control is clicked but the success indicator
does not appear within the wait bound, the attempt appends exactly one
entry whose status is submitted_no_green_box (the inconclusive
no-indicator outcome of the spec) and whose error field is empty — the
outcome is recorded as a status, not as an error. -/
theorem c8_submitted_no_indicator (data : Payload) (src : String)
    (env : PageEnv) (h1 : env.hasSubmit = true)
    (h2 : env.greenBoxAppears = false) :
    (backgroundRocketour data src env none).entries
      = [{ status := some "submitted_no_green_box", error := none,
           payload := data }] ∧
    (backgroundRocketour data src env none).clicked = true ∧
    (backgroundRocketour data src env none).closed = true := by
  cases env with
  | mk a b c d e f g =>
      have hf : f = true := h1
      have hg : g = false := h2
      subst hf
      subst hg
      exact ⟨rfl, rfl, rfl⟩

/-- C8, witness at a concrete page that never shows the indicator. -/
theorem c8_submitted_no_indicator_witness :
    (backgroundRocketour samplePayload "form" envNoGreen none).entries
      = [{ status := some "submitted_no_green_box", error := none,
           payload := samplePayload }] ∧
    (backgroundRocketour samplePayload "form" envNoGreen none).clicked
      = true ∧
    (backgroundRocketour samplePayload "form" envNoGreen none).closed
      = true :=
  c8_submitted_no_indicator samplePayload "form" envNoGreen rfl rfl

/-- C9: a submission giving tours as a list and the submission giving
tours as the equivalent comma-space delimited string compose the same
notes text. -/
theorem c9_tours_roundtrip (data : Payload) (src : String)
    (ts : List String) :
    notesValue { data with tours := .listV ts } src
      = notesValue { data with tours := .strV (String.intercalate ", " ts) }
          src := by
  obtain ⟨s0, n0, p0, np0, pa0, td0, tv0⟩ := data
  have key :
      ((if toursTruthy (ToursVal.listV ts)
        then [toursText (ToursVal.listV ts)] else []).filter
          (fun s => s != ""))
        = ((if toursTruthy (ToursVal.strV (String.intercalate ", " ts))
            then [toursText (ToursVal.strV (String.intercalate ", " ts))]
            else []).filter (fun s => s != "")) := by
    by_cases hj : String.intercalate ", " ts = "" <;>
      simp [toursTruthy, toursText, hj]
  unfold notesValue notesParts
  dsimp only
  simp only [List.filter_append]
  rw [key]

/-- C10: with the page reached and no exception, a lead-name or
lead-phone selector that is present is always typed — with the empty
string when the submission lacks a truthy value — and only an absent
selector is skipped. -/
theorem c10_lead_fields_empty_fill (data : Payload) (src : String)
    (env : PageEnv) (hn : jsTruthy data.name = false)
    (hp : jsTruthy data.phone = false) :
    (backgroundRocketour data src env none).leadNameTyped
      = (if env.hasLeadName = true then some "" else none) ∧
    (backgroundRocketour data src env none).leadPhoneTyped
      = (if env.hasLeadPhone = true then some "" else none) := by
  rw [bg_leadNameTyped, bg_leadPhoneTyped, jsStringField_of_falsy data.name hn,
      jsStringField_of_falsy data.phone hp]
  exact ⟨rfl, rfl⟩

/-- C10, witness: a payload with no name and no phone, on a page with
both lead selectors present, gets both fields typed as the empty
string. -/
theorem c10_lead_fields_empty_fill_witness :
    (backgroundRocketour waPayload "form" envAll none).leadNameTyped
      = some "" ∧
    (backgroundRocketour waPayload "form" envAll none).leadPhoneTyped
      = some "" :=
  c10_lead_fields_empty_fill waPayload "form" envAll rfl rfl

end BTour
